import Mathlib

/-!
# Verification of the workflow-orchestrator coordinator core

Shallow embedding of the coordinator:

* `src/shared/enums.py`, `src/shared/models.py`  — data model
  (timestamps `created_at`/`updated_at` and the opaque `parameters` payload
  are omitted: no verified claim reads them);
* `src/coordinator/core/workflow_engine.py`      — `WorkflowEngine`;
* `src/coordinator/core/scheduler.py`            — `Scheduler`;
* `src/coordinator/core/worker_registry.py`      — `WorkerRegistry`;
* `src/coordinator/api/workers.py`               — the WebSocket message
  dispatch for `job_status` and `ready`.

Modelling conventions, faithful to the Python source:

* `StateManager.get_workflow`, `get_job` and `get_worker` are `async def`
  (state_manager.py lines 30, 123, 170), but the engine calls them WITHOUT
  `await` (workflow_engine.py lines 36, 168, 216, 387-388, 506, 523, 550),
  as do `WorkerRegistry._handle_worker_failure` (worker_registry.py line
  94) and the `ready` branch of the endpoint (workers.py line 83).  In
  Python such a call binds a coroutine object: it is truthy — the
  `if not x:` / `is not None` guards never fire — and reading or assigning
  any attribute of it raises `AttributeError`.  The un-awaited call is
  modelled by `Coro`, and each affected method by its real control flow up
  to the raise: the dead guard, then the attribute access that raises,
  with the store unchanged.  The un-awaited `state.remove_worker` /
  `state.unassign_job` calls in the registry likewise create and drop a
  coroutine: no-ops.
* `Scheduler.assign_job` awaits all its state calls and is embedded in
  full (`assignJobS`); the registry's and endpoint's plain dict reads are
  embedded directly.
* Python dicts iterate in insertion order: each dict is modelled as a list
  (of records, or of key-value pairs with upsert semantics).
* In the running system every job object is shared (aliased) between
  `StateManager.jobs` and its workflow's `jobs` list; job records are
  stored inside their workflow.
* Python `datetime` arithmetic is modelled with timestamps in whole
  microseconds (`Nat`); `timedelta.seconds` of a non-negative difference
  is `(µs / 1000000) % 86400`.
-/

namespace WFO

/-- `JobStatus` from `src/shared/enums.py`. -/
inductive JobStatus where
  | pending | running | completed | failed | retrying | skipped
deriving DecidableEq, Repr

/-- `WorkflowStatus` from `src/shared/enums.py`. -/
inductive WorkflowStatus where
  | pending | running | completed | failed | cancelled
deriving DecidableEq, Repr

/-- `JobType` from `src/shared/enums.py`. -/
inductive JobType where
  | validation | processing | integration | cleanup
deriving DecidableEq, Repr

/-- `WorkerStatus` from `src/shared/enums.py`.  `Scheduler` and the `ready`
handler assign the raw strings `"busy"`/`"idle"`; since `WorkerStatus` is a
`str` enum those compare equal to the corresponding members, so we keep the
enum. -/
inductive WorkerStatus where
  | idle | busy | offline
deriving DecidableEq, Repr

/-- `Job` from `src/shared/models.py`.  `parameters`, `created_at`,
`updated_at` omitted (opaque / time-only).  `result` holds the opaque result
payload as a string.  `on_success = None` and `on_success = []` are
indistinguishable in the source (both falsy, and membership tests agree), so
both are modelled by `[]`. -/
structure Job where
  id : String
  jtype : JobType
  status : JobStatus := .pending
  worker_id : Option String := none
  result : Option String := none
  error : Option String := none
  retry_count : Nat := 0
  max_retries : Nat := 3
  on_success : List String := []
  on_failure : List String := []
  always_run : Bool := false
deriving DecidableEq, Repr

/-- `Workflow` from `src/shared/models.py` (timestamps omitted). -/
structure Workflow where
  id : String
  name : String := ""
  status : WorkflowStatus := .pending
  jobs : List Job
  current_jobs : List String := []
  completed_jobs : List String := []
  failed_jobs : List String := []
deriving DecidableEq, Repr

/-- `Worker` from `src/shared/models.py`; `last_heartbeat` and
`registered_at` in microseconds. -/
structure Worker where
  id : String
  status : WorkerStatus := .idle
  capabilities : List JobType
  current_job_id : Option String := none
  last_heartbeat : Nat := 0
deriving DecidableEq, Repr

/-! ## Store primitives (`StateManager`, memory tier)

`assign_job`/`unassign_job` maintain the dict `job_assignments`; we model it
as an association list with upsert semantics, which keeps keys unique. -/

/-- `state.get_job(job_id)` / `next((j for j in workflow.jobs if j.id == job_id), None)`:
first job with the given id. -/
def getJob (wf : Workflow) (jid : String) : Option Job :=
  wf.jobs.find? (fun j => j.id = jid)

/-- Replace the first job with id `jid` by `f` applied to it (Python mutates
the single shared object; with distinct ids this is the same). -/
def updateFirstJob (f : Job → Job) (jid : String) : List Job → List Job
  | [] => []
  | j :: rest =>
      if j.id = jid then f j :: rest else j :: updateFirstJob f jid rest

/-- Mutate the job record `jid` inside the workflow. -/
def updateJob (wf : Workflow) (jid : String) (f : Job → Job) : Workflow :=
  { wf with jobs := updateFirstJob f jid wf.jobs }

/-- Replace the first worker with id `wid` by `f` applied to it. -/
def updateFirstWorker (f : Worker → Worker) (wid : String) :
    List Worker → List Worker
  | [] => []
  | w :: rest =>
      if w.id = wid then f w :: rest else w :: updateFirstWorker f wid rest

/-- `job_assignments[job_id] = worker_id` (dict upsert). -/
def setAssign (l : List (String × String)) (jid wid : String) :
    List (String × String) :=
  match l with
  | [] => [(jid, wid)]
  | (j, w) :: rest =>
      if j = jid then (jid, wid) :: rest else (j, w) :: setAssign rest jid wid

/-- `job_assignments.pop(job_id, None)` (dict delete). -/
def removeAssign (l : List (String × String)) (jid : String) :
    List (String × String) :=
  l.filter (fun a => a.1 ≠ jid)

/-- `worker.status = "busy"; worker.current_job_id = job_id`. -/
def busyW (jid : String) (w : Worker) : Worker :=
  { w with status := .busy, current_job_id := some jid }

/-- `worker.status = "idle"; worker.current_job_id = None`. -/
def freeW (w : Worker) : Worker :=
  { w with status := .idle, current_job_id := none }

/-! ## Python exceptions and un-awaited coroutines -/

/-- Python exceptions surfaced by the handlers we model. -/
inductive PyExc where
  | attributeError
deriving DecidableEq, Repr

instance {α : Type} [DecidableEq α] : DecidableEq (Except PyExc α) :=
  fun a b =>
    match a, b with
    | .ok x, .ok y =>
        if h : x = y then isTrue (by rw [h])
        else isFalse (fun c => h (by injection c))
    | .error x, .error y =>
        if h : x = y then isTrue (by rw [h])
        else isFalse (fun c => h (by injection c))
    | .ok _, .error _ => isFalse (fun c => Except.noConfusion c)
    | .error _, .ok _ => isFalse (fun c => Except.noConfusion c)

/-- An un-awaited coroutine object, bound by calling an `async def`
without `await`: truthy, and with no readable or assignable attributes
(see the header). -/
inductive Coro where
  | mk : Coro
deriving DecidableEq, Repr

/-- `bool(coro)`: a coroutine object is truthy, so `if not x:` and
`x is not None` guards on an un-awaited result never fire. -/
def Coro.truthy : Coro → Bool := fun _ => true

/-- `coro.attr` read or `coro.attr = v` write: raises `AttributeError`. -/
def Coro.attr : Coro → Except PyExc Unit := fun _ => .error .attributeError

/-- The coordinator's in-memory store (`StateManager.__init__`,
state_manager.py lines 16-21): workflow records in dict order (each job
record lives inside its workflow's `jobs` list, mirroring the object
aliasing), worker records, the `job_assignments` dict, and the set of
live WebSocket connections. -/
structure St where
  workflows : List Workflow := []
  workers : List Worker := []
  assignments : List (String × String) := []
  connections : List String := []
deriving DecidableEq, Repr

/-! ## Workflow engine (`src/coordinator/core/workflow_engine.py`) -/

/-- The scan of `workflow.jobs` inside `WorkflowEngine._can_schedule_job`
(lines 459-479): walks the candidate predecessors accumulating
`has_predecessors` and breaking as soon as a satisfying predecessor is
found; after a full pass, a job with no predecessors is an entry job and is
schedulable. -/
def canSchedLoop (completed failed : List String) (jid : String) :
    List Job → Bool → Bool
  | [], hasPred => !hasPred
  | p :: rest, hasPred =>
      if jid ∈ p.on_success ∧ p.id ∈ completed then
        true
      else
        let hp := hasPred || decide (jid ∈ p.on_success)
        if jid ∈ p.on_failure ∧ p.id ∈ failed then
          true
        else
          canSchedLoop completed failed jid rest
            (hp || decide (jid ∈ p.on_failure))

/-- `WorkflowEngine._can_schedule_job` (lines 424-484). -/
def canScheduleJob (wf : Workflow) (jid : String) : Bool :=
  match getJob wf jid with
  | none => false
  | some job =>
      if jid ∈ wf.completed_jobs ∨ jid ∈ wf.failed_jobs then false
      else if jid ∈ wf.current_jobs ∧ job.status = .running then false
      else if job.always_run then true
      else canSchedLoop wf.completed_jobs wf.failed_jobs jid wf.jobs false

/-- `JobStatus(status)` on a raw string: the six valid values, else the
`ValueError` case, modelled as `none`. -/
def jobStatusOfString (s : String) : Option JobStatus :=
  if s = "pending" then some .pending
  else if s = "running" then some .running
  else if s = "completed" then some .completed
  else if s = "failed" then some .failed
  else if s = "retrying" then some .retrying
  else if s = "skipped" then some .skipped
  else none

/-- `WorkflowEngine.start_workflow` (lines 27-76).  `self.state.get_workflow`
(line 36) binds a coroutine without `await`: the `if not workflow` guard
(line 37) never fires and the status read `workflow.status !=
WorkflowStatus.PENDING` (line 41) raises `AttributeError` — before any
dependency graph is built and before any job is scheduled. -/
def startWorkflow (st : St) (_wid : String) : Except PyExc Bool × St :=
  let workflow : Coro := .mk
  if workflow.truthy = false then (.ok false, st)
  else ((workflow.attr).map (fun _ => false), st)

/-- `WorkflowEngine._schedule_job` (lines 377-422).  `get_workflow` and
`get_job` (lines 387-388) bind coroutines without `await`: the not-found
guard (line 390) never fires and the status read `job.status in [...]`
(line 395) raises `AttributeError` — the scheduler is never reached, so
no job is ever dispatched by the engine. -/
def scheduleJob (st : St) (_wid _jid : String) : Except PyExc Bool × St :=
  let workflow : Coro := .mk
  let job : Coro := .mk
  if workflow.truthy = false ∨ job.truthy = false then (.ok false, st)
  else ((job.attr).map (fun _ => false), st)

/-- `WorkflowEngine.handle_job_completion` (lines 161-203).
`state.get_job` (line 168) binds a coroutine without `await`: the
`if not job` guard (line 169) never fires and the first mutation
`job.status = JobStatus.COMPLETED` (line 174) raises `AttributeError` —
the job is not marked completed, the workflow's job lists and status are
untouched, and no successor is scheduled. -/
def handleJobCompletion (st : St) (_jid _r : String) :
    Except PyExc Unit × St :=
  let job : Coro := .mk
  if job.truthy = false then (.ok (), st)
  else (job.attr, st)

/-- `WorkflowEngine.handle_job_failure` (lines 209-271).  `state.get_job`
(line 216) binds a coroutine without `await`: the guard never fires and
the retry check `job.retry_count < job.max_retries` (line 224) raises
`AttributeError` on the attribute read — no retry is counted, no job is
failed or moved, and no `on_failure` successor is scheduled. -/
def handleJobFailure (st : St) (_jid : String) (_e : Option String) :
    Except PyExc Unit × St :=
  let job : Coro := .mk
  if job.truthy = false then (.ok (), st)
  else (job.attr, st)

/-- `WorkflowEngine.cancel_workflow` (lines 497-537).
`state.get_workflow` (line 506) binds a coroutine without `await`: the
guard never fires and the status read `workflow.status not in [...]`
(line 511) raises `AttributeError` — no workflow or job is ever marked
cancelled or failed by it. -/
def cancelWorkflow (st : St) (_wid : String) : Except PyExc Bool × St :=
  let workflow : Coro := .mk
  if workflow.truthy = false then (.ok false, st)
  else ((workflow.attr).map (fun _ => false), st)

/-- `WorkflowEngine.update_job_status` (lines 543-560).  `state.get_job`
(line 550) binds a coroutine without `await`, so the unknown-id guard
(line 551) is dead.  Inside the `try`, the right-hand side
`JobStatus(status)` is evaluated first: an invalid string raises
`ValueError`, caught by the `except ValueError` clause (line 559) — a
silent no-op; for a valid string the assignment `job.status = ...` then
raises `AttributeError`, which `except ValueError` does not catch. -/
def updateJobStatus (st : St) (_jid s : String) : Except PyExc Unit × St :=
  let job : Coro := .mk
  if job.truthy = false then (.ok (), st)
  else
    match jobStatusOfString s with
    | none => (.ok (), st)
    | some _ => (job.attr, st)

/-! ## Scheduler (`src/coordinator/core/scheduler.py`)

`SchedState` is the scheduler-visible slice of `StateManager`: the worker
records, the `job_assignments` dict, and `active_connections`.  `sentLog`
records every `job_assignment` message actually written to a socket — the
observable dispatch trace.  `sendOk` abstracts whether `websocket.send_json`
succeeds for a given connected worker. -/

structure SchedState where
  workers : List Worker
  assignments : List (String × String) := []
  connections : List String := []
  sentLog : List (String × String) := []
deriving DecidableEq, Repr

/-- `Scheduler.send_message` (lines 17-28): `False` when the worker has no
live connection or the write raises; logs the delivered message. -/
def sendMessage (sendOk : String → Bool) (q : SchedState) (wid jid : String) :
    Bool × SchedState :=
  if wid ∈ q.connections then
    if sendOk wid then (true, { q with sentLog := q.sentLog ++ [(jid, wid)] })
    else (false, q)
  else (false, q)

/-- `state.get_worker(worker_id)` (memory tier). -/
def findWorker (ws : List Worker) (wid : String) : Option Worker :=
  ws.find? (fun w => w.id = wid)

/-- `Scheduler.assign_job` (lines 43-84): snapshot the idle,
capability-matching workers (dict order), pick the first, mark it busy,
record the assignment, send `job_assignment`; on send failure revert the
worker and the assignment and return `None`. -/
def assignJobS (sendOk : String → Bool) (jid : String) (jt : JobType)
    (q : SchedState) : Option String × SchedState :=
  let suitable := (q.workers.filter (fun w =>
      jt ∈ w.capabilities ∧ w.status = .idle)).map Worker.id
  match suitable with
  | [] => (none, q)
  | wid :: _ =>
      match findWorker q.workers wid with
      | none => (none, q)
      | some _ =>
          let q1 := { q with
            workers := updateFirstWorker (busyW jid) wid q.workers,
            assignments := setAssign q.assignments jid wid }
          match sendMessage sendOk q1 wid jid with
          | (true, q2) => (some wid, q2)
          | (false, q2) =>
              (none, { q2 with
                workers := updateFirstWorker freeW wid q2.workers,
                assignments := removeAssign q2.assignments jid })

/-- `Scheduler.handle_job_completion` (lines 86-96): free the worker and
drop the assignment.  (No caller in the repository invokes this.) -/
def schedHandleJobCompletion (wid jid : String) (q : SchedState) : SchedState :=
  let freed := updateFirstWorker freeW wid q.workers
  let q1 :=
    match findWorker q.workers wid with
    | some _ => { q with workers := freed }
    | none => q
  { q1 with assignments := removeAssign q1.assignments jid }

/-! ## Worker registry (`src/coordinator/core/worker_registry.py`) -/

/-- `asyncio.sleep(30)` in `check_worker_health` (line 56). -/
def HEARTBEAT_CHECK_INTERVAL : Nat := 30

/-- The `> 60` threshold in `check_worker_health` (line 62). -/
def HEARTBEAT_TIMEOUT : Nat := 60

/-- Python `timedelta.seconds` of a non-negative difference given in
microseconds: the seconds *component* — whole seconds modulo one day, the
`days` part discarded. -/
def tdSeconds (us : Nat) : Nat := us / 1000000 % 86400

/-- The per-worker test in `check_worker_health` (lines 60-62):
`(current_time - worker.last_heartbeat).seconds > 60`. -/
def workerTimedOut (now : Nat) (w : Worker) : Bool :=
  tdSeconds (now - w.last_heartbeat) > HEARTBEAT_TIMEOUT

/-- `WorkerRegistry._handle_worker_failure` (worker_registry.py lines
67-110).  The per-worker assignment snapshot is a plain dict read; with
no assigned jobs the method returns.  Otherwise, for the first job of the
loop: `state.unassign_job(job_id)` (line 91) is un-awaited — a no-op, the
assignment entry stays — and `state.get_job(job_id)` (line 94) binds a
coroutine, so `if job:` passes and `job.worker_id = None` (line 97)
raises `AttributeError`: the job record is untouched and
`workflow_engine.handle_job_failure` is never invoked. -/
def handleWorkerFailure (st : St) (wid : String) : Except PyExc Unit × St :=
  let failedJobs := (st.assignments.filter (fun a => a.2 = wid)).map
    Prod.fst
  if failedJobs = [] then (.ok (), st)
  else
    let job : Coro := .mk
    if job.truthy = false then (.ok (), st)
    else (job.attr, st)

/-- `WorkerRegistry.disconnect` (lines 25-34): deletes the connection
entry (a plain dict `del`); `state.remove_worker` (line 30) is un-awaited
— a no-op, the worker record stays in the store — then
`_handle_worker_failure` is awaited (line 34) and raises whenever the
worker held an assignment. -/
def registryDisconnect (st : St) (wid : String) : Except PyExc Unit × St :=
  let st1 := { st with connections := st.connections.erase wid }
  handleWorkerFailure st1 wid

/-- The worker loop of one `check_worker_health` wake-up (lines 55-65):
the timeout comparison reads plain `Worker` records from the sync
`state.workers` dict; `disconnect` is awaited, so an `AttributeError`
raised inside it propagates and ends the health task. -/
def healthLoop (now : Nat) : St → List Worker → Except PyExc Unit × St
  | st, [] => (.ok (), st)
  | st, w :: rest =>
      if workerTimedOut now w then
        match registryDisconnect st w.id with
        | (.error e, st1) => (.error e, st1)
        | (.ok _, st1) => healthLoop now st1 rest
      else healthLoop now st rest

/-- One wake-up of `WorkerRegistry.check_worker_health` at time `now`. -/
def checkWorkerHealthTick (now : Nat) (st : St) : Except PyExc Unit × St :=
  healthLoop now st st.workers

/-! ## WebSocket endpoint (`src/coordinator/api/workers.py`) -/

/-- The `job_status` branch of `websocket_endpoint` (workers.py lines
65-78) together with the enclosing `except Exception` clause (lines
100-103): `completed`/`failed` go to the engine handlers and any other
status string to `update_job_status`; when the handler raises, the
endpoint disconnects the sending worker. -/
def wsJobStatus (st : St) (wid jid status r : String) :
    Except PyExc Unit × St :=
  let step : Except PyExc Unit × St :=
    if status = "completed" then handleJobCompletion st jid r
    else if status = "failed" then handleJobFailure st jid (some r)
    else updateJobStatus st jid status
  match step with
  | (.error _, st1) => registryDisconnect st1 wid
  | (.ok _, st1) => (.ok (), st1)

/-- The `ready` branch of `websocket_endpoint` (workers.py lines 80-91).
`state.get_worker(worker_id)` (line 83) binds a coroutine without
`await`: the `worker is not None` test passes for every worker and
`worker.status = "idle"` (line 85) raises `AttributeError` — before any
workflow is inspected and before the (nonexistent)
`_reschedule_pending_jobs` would even be looked up.  No worker is ever
marked idle by this branch and nothing is rescheduled. -/
def wsReady (st : St) (_wid : String) : Except PyExc Unit × St :=
  let worker : Coro := .mk
  if worker.truthy = false then (.ok (), st)
  else (worker.attr, st)

/-- A `ready` message through the endpoint's `except Exception` clause
(lines 100-103): the raising branch leads to `disconnect`. -/
def wsReadyOuter (st : St) (wid : String) : Except PyExc Unit × St :=
  match wsReady st wid with
  | (.error _, st1) => registryDisconnect st1 wid
  | (.ok _, st1) => (.ok (), st1)


/-! # Concrete scenarios -/

/-- A processing job of the parallel scenario. -/
def pjob (i : String) (os : List String) : Job :=
  { id := i, jtype := .processing, on_success := os }

/-- S (on_success=[P1,P2,P3]); P1, P2, P3 (each on_success=[Agg]); Agg. -/
def c2wf : Workflow :=
  { id := "W-par", jobs :=
      [pjob "S" ["P1", "P2", "P3"], pjob "P1" ["Agg"], pjob "P2" ["Agg"],
       pjob "P3" ["Agg"], pjob "Agg" []] }

/-- A connected processing worker of the parallel scenario. -/
def pworker (i : String) : Worker := { id := i, capabilities := [.processing] }

/-- The C2 store: the parallel-join workflow (pending) and four connected
processing workers. -/
def c2st : St :=
  { workflows := [c2wf],
    workers := [pworker "w1", pworker "w2", pworker "w3", pworker "w4"],
    connections := ["w1", "w2", "w3", "w4"] }

/-- The job of the C3 scenario, in the shape the claim's premise intends
after a (successful) cancellation. -/
def c3job : Job :=
  { id := "A", jtype := .processing, status := .failed,
    error := some "Workflow cancelled" }

/-- A cancelled workflow whose job A is already failed. -/
def c3wf : Workflow :=
  { id := "W-can", status := .cancelled, jobs := [c3job],
    current_jobs := ["A"] }

/-- The C3 store. -/
def c3st : St := { workflows := [c3wf] }

/-- Worker w1, busy executing j1. -/
def c4worker : Worker :=
  { id := "w1", status := .busy, capabilities := [.processing],
    current_job_id := some "j1" }

/-- Job j1, running on w1. -/
def c4job : Job :=
  { id := "j1", jtype := .processing, status := .running,
    worker_id := some "w1" }

/-- The running workflow of the C4 scenario. -/
def c4wf : Workflow :=
  { id := "W-c4", status := .running, jobs := [c4job],
    current_jobs := ["j1"] }

/-- The C4 store while j1 runs on w1: assignment `(j1, w1)`, w1 busy and
connected. -/
def c4st : St :=
  { workflows := [c4wf], workers := [c4worker],
    assignments := [("j1", "w1")], connections := ["w1"] }

/-- Spec invariant P2 (assignment consistency) as a checkable predicate
over the store: every assignment entry `(j, w)` has worker `w` busy on
`j` and job `j` running or retrying with `worker_id = w`. -/
def p2check (st : St) : Bool :=
  st.assignments.all fun a =>
    (match findWorker st.workers a.2 with
     | none => false
     | some w => decide (w.status = WorkerStatus.busy) &&
         decide (w.current_job_id = some a.1)) &&
    st.workflows.any fun wf =>
      match getJob wf a.1 with
      | none => false
      | some j => decide (j.worker_id = some a.2) &&
          (decide (j.status = JobStatus.running) ||
           decide (j.status = JobStatus.retrying))

/-- Worker w7: last heartbeat at time 0, busy with j1. -/
def c7worker : Worker :=
  { id := "w7", status := .busy, capabilities := [.processing],
    current_job_id := some "j1", last_heartbeat := 0 }

/-- Job j1 of the C7 scenario, running on w7. -/
def c7job : Job :=
  { id := "j1", jtype := .processing, status := .running,
    worker_id := some "w7" }

/-- The running workflow of the C7 scenario. -/
def c7wf : Workflow :=
  { id := "W-c7", status := .running, jobs := [c7job],
    current_jobs := ["j1"] }

/-- The C7 store: w7 connected and busy under assignment `(j1, w7)`. -/
def c7st : St :=
  { workflows := [c7wf], workers := [c7worker],
    assignments := [("j1", "w7")], connections := ["w7"] }

/-- A worker silent for exactly one day when probed at `now = 86400 s`. -/
def c7silent : Worker :=
  { id := "w0", capabilities := [.processing], last_heartbeat := 0 }

/-- The announcing worker of the C8 scenario (busy: it just finished). -/
def c8worker : Worker :=
  { id := "w8", status := .busy, capabilities := [.processing] }

/-- A running workflow with a pending job, waiting for a worker. -/
def c8wf : Workflow :=
  { id := "W-c8", status := .running,
    jobs := [{ id := "P", jtype := .processing }], current_jobs := [] }

/-- The C8 store: w8 connected, no assignments. -/
def c8st : St :=
  { workflows := [c8wf], workers := [c8worker], connections := ["w8"] }



/-- The status-string values accepted by `JobStatus(status)`. -/
def jobStatusStrings : List String :=
  ["pending", "running", "completed", "failed", "retrying", "skipped"]

/-- A job and a one-job store used to witness C10. -/
def c10job : Job := { id := "j1", jtype := .cleanup, status := .running }

/-- The C10 workflow and store holding j1. -/
def c10wf : Workflow := { id := "W-c10", jobs := [c10job] }

/-- The C10 store. -/
def c10st : St := { workflows := [c10wf] }

/-- Predecessor A of the C1 witness workflow. -/
def c1jobA : Job :=
  { id := "A", jtype := .processing, status := .completed, on_success := ["C"] }

/-- Candidate job C of the C1 witness workflow. -/
def c1jobC : Job := { id := "C", jtype := .processing }

/-- The workflow used to witness C1: A (on_success=[C], completed),
B (on_failure=[C], running), C pending. -/
def c1wf : Workflow :=
  { id := "W-c1", status := .running,
    jobs :=
      [c1jobA,
       { id := "B", jtype := .processing, status := .running,
         on_failure := ["C"] },
       c1jobC],
    current_jobs := ["B"], completed_jobs := ["A"] }

/-- Worker of the C6 witness: idle, capable, but with no live connection,
so the `job_assignment` write fails. -/
def c6worker : Worker := { id := "w6", capabilities := [.validation] }

/-- C6 witness store: one idle capable worker, no connections, one
unrelated assignment. -/
def c6q : SchedState :=
  { workers := [c6worker], assignments := [("other", "w9")], connections := [] }

/-- C6 witness store with no capable worker. -/
def c6qNone : SchedState := { workers := [c6worker] }


/-! # Lemmas -/

theorem updateFirstWorker_comp (f g : Worker → Worker)
    (hf : ∀ w, (f w).id = w.id) (wid : String) (l : List Worker) :
    updateFirstWorker g wid (updateFirstWorker f wid l) =
      updateFirstWorker (fun w => g (f w)) wid l := by
  induction l with
  | nil => rfl
  | cons w rest ih =>
      by_cases h : w.id = wid
      · simp [updateFirstWorker, h, hf]
      · simp [updateFirstWorker, h, ih]

theorem updateFirstWorker_eq_self {h : Worker → Worker} {wid : String}
    {l : List Worker} {w0 : Worker} (hfind : findWorker l wid = some w0)
    (hw : h w0 = w0) : updateFirstWorker h wid l = l := by
  induction l with
  | nil => simp [findWorker] at hfind
  | cons w rest ih =>
      by_cases hm : w.id = wid
      · have : w0 = w := by
          have := hfind
          unfold findWorker at this
          rw [List.find?_cons_of_pos _ (by simpa using hm)] at this
          exact (Option.some.injEq _ _ ▸ this.symm)
        subst this
        simp [updateFirstWorker, hm, hw]
      · have hrest : findWorker rest wid = some w0 := by
          have := hfind
          unfold findWorker at this ⊢
          rwa [List.find?_cons_of_neg _ (by simpa using hm)] at this
        simp [updateFirstWorker, hm, ih hrest]

theorem removeAssign_setAssign {l : List (String × String)} {jid : String}
    (hl : ∀ a ∈ l, a.1 ≠ jid) (wid : String) :
    removeAssign (setAssign l jid wid) jid = l := by
  induction l with
  | nil => simp [setAssign, removeAssign]
  | cons a rest ih =>
      have ha : a.1 ≠ jid := hl a (List.mem_cons_self a rest)
      have hrest : ∀ b ∈ rest, b.1 ≠ jid :=
        fun b hb => hl b (List.mem_cons_of_mem a hb)
      cases a with
      | mk j w =>
          have ihr := ih hrest
          simp only [removeAssign, decide_not] at ihr
          simp only [setAssign, if_neg ha, removeAssign, List.filter_cons,
            decide_not]
          simp [ha, ihr]

theorem jobStatusOfString_eq_none (s : String) (h : s ∉ jobStatusStrings) :
    jobStatusOfString s = none := by
  simp only [jobStatusStrings, List.mem_cons, List.not_mem_nil, or_false,
    not_or] at h
  obtain ⟨h1, h2, h3, h4, h5, h6⟩ := h
  simp [jobStatusOfString, h1, h2, h3, h4, h5, h6]

/-- `_handle_worker_failure` never changes the store: it either finds no
assigned job and returns, or raises `AttributeError` at the first job of
its loop before any mutation. -/
theorem handleWorkerFailure_state (st : St) (wid : String) :
    (handleWorkerFailure st wid).2 = st := by
  unfold handleWorkerFailure
  dsimp only
  split
  · rfl
  · rfl

/-- `disconnect` changes exactly the connection set, whether or not its
failure path raises. -/
theorem registryDisconnect_state (st : St) (wid : String) :
    (registryDisconnect st wid).2 =
      { st with connections := st.connections.erase wid } :=
  handleWorkerFailure_state _ wid

/-- Each of the six member strings is accepted by `JobStatus(status)`. -/
theorem jobStatusOfString_mem (s : String) (h : s ∈ jobStatusStrings) :
    ∃ v, jobStatusOfString s = some v := by
  simp only [jobStatusStrings, List.mem_cons, List.not_mem_nil,
    or_false] at h
  rcases h with rfl | rfl | rfl | rfl | rfl | rfl
  all_goals exact ⟨_, rfl⟩

/-- Outcome of the predecessor scan: `true` iff a satisfying predecessor
exists, or the accumulator is still `false` and no job lists `jid` at all
(entry job). -/
theorem canSchedLoop_eq_true_iff (completed failed : List String)
    (jid : String) :
    ∀ (L : List Job) (h : Bool),
    canSchedLoop completed failed jid L h = true ↔
      ((∃ p ∈ L, (jid ∈ p.on_success ∧ p.id ∈ completed) ∨
                 (jid ∈ p.on_failure ∧ p.id ∈ failed)) ∨
       (h = false ∧ ∀ p ∈ L, jid ∉ p.on_success ∧ jid ∉ p.on_failure)) := by
  intro L
  induction L with
  | nil =>
      intro h
      cases h <;> simp [canSchedLoop]
  | cons p rest ih =>
      intro h
      by_cases h1 : jid ∈ p.on_success ∧ p.id ∈ completed
      · simp [canSchedLoop, h1]
      · by_cases h2 : jid ∈ p.on_failure ∧ p.id ∈ failed
        · simp [canSchedLoop, h1, h2]
        · simp only [canSchedLoop, if_neg h1, if_neg h2, ih]
          constructor
          · rintro (⟨q, hq, hcase⟩ | ⟨hacc, hall⟩)
            · exact Or.inl ⟨q, List.mem_cons_of_mem p hq, hcase⟩
            · have hps : jid ∉ p.on_success := by
                intro hm
                simp [hm] at hacc
              have hpf : jid ∉ p.on_failure := by
                intro hm
                simp [hm] at hacc
              have hh : h = false := by
                simp [hps, hpf] at hacc
                exact hacc
              exact Or.inr ⟨hh, fun q hq => by
                rcases List.mem_cons.mp hq with rfl | hq'
                · exact ⟨hps, hpf⟩
                · exact hall q hq'⟩
          · rintro (⟨q, hq, hcase⟩ | ⟨hh, hall⟩)
            · rcases List.mem_cons.mp hq with rfl | hq'
              · rcases hcase with hc | hc
                · exact absurd hc h1
                · exact absurd hc h2
              · exact Or.inl ⟨q, hq', hcase⟩
            · have hps := (hall p (List.mem_cons_self p rest)).1
              have hpf := (hall p (List.mem_cons_self p rest)).2
              refine Or.inr ⟨?_, fun q hq => hall q (List.mem_cons_of_mem p hq)⟩
              simp [hh, hps, hpf]

/-! # Claim theorems -/

/-- **C1.**  `_can_schedule_job`: for a non-`always_run` job C that has at
least one predecessor and is in none of `completed_jobs`/`failed_jobs` nor
running in `current_jobs`, the precondition holds iff some predecessor
listing C in `on_success` is completed or some predecessor listing C in
`on_failure` is failed (OR-join); and any job in `completed_jobs`, in
`failed_jobs`, or running in `current_jobs` is never schedulable. -/
theorem c1_can_schedule_job_spec (wf : Workflow) (C : String) (job : Job)
    (hj : getJob wf C = some job) (hAR : job.always_run = false)
    (hpred : ∃ p ∈ wf.jobs, C ∈ p.on_success ∨ C ∈ p.on_failure)
    (hc : C ∉ wf.completed_jobs) (hf : C ∉ wf.failed_jobs)
    (hr : ¬(C ∈ wf.current_jobs ∧ job.status = JobStatus.running)) :
    (canScheduleJob wf C = true ↔
       (∃ p ∈ wf.jobs, C ∈ p.on_success ∧ p.id ∈ wf.completed_jobs) ∨
       (∃ p ∈ wf.jobs, C ∈ p.on_failure ∧ p.id ∈ wf.failed_jobs)) ∧
    (∀ (wf' : Workflow) (D : String), D ∈ wf'.completed_jobs →
       canScheduleJob wf' D = false) ∧
    (∀ (wf' : Workflow) (D : String), D ∈ wf'.failed_jobs →
       canScheduleJob wf' D = false) ∧
    (∀ (wf' : Workflow) (D : String) (jb : Job), getJob wf' D = some jb →
       D ∈ wf'.current_jobs → jb.status = JobStatus.running →
       canScheduleJob wf' D = false) := by
  refine ⟨?_, ?_, ?_, ?_⟩
  · have hnotin : ¬(C ∈ wf.completed_jobs ∨ C ∈ wf.failed_jobs) := by
      rintro (h | h)
      exacts [hc h, hf h]
    rw [show canScheduleJob wf C =
        canSchedLoop wf.completed_jobs wf.failed_jobs C wf.jobs false by
      simp [canScheduleJob, hj, hnotin, hr, hAR]]
    rw [canSchedLoop_eq_true_iff]
    constructor
    · rintro (⟨p, hp, hcase | hcase⟩ | ⟨_, hall⟩)
      · exact Or.inl ⟨p, hp, hcase⟩
      · exact Or.inr ⟨p, hp, hcase⟩
      · obtain ⟨p, hp, hcase⟩ := hpred
        rcases hcase with hm | hm
        · exact absurd hm (hall p hp).1
        · exact absurd hm (hall p hp).2
    · rintro (⟨p, hp, hcase⟩ | ⟨p, hp, hcase⟩)
      · exact Or.inl ⟨p, hp, Or.inl hcase⟩
      · exact Or.inl ⟨p, hp, Or.inr hcase⟩
  · intro wf' D hD
    cases hg : getJob wf' D <;> simp [canScheduleJob, hg, hD]
  · intro wf' D hD
    cases hg : getJob wf' D <;> simp [canScheduleJob, hg, hD]
  · intro wf' D jb hg hcur hrun
    by_cases hmem : D ∈ wf'.completed_jobs ∨ D ∈ wf'.failed_jobs <;>
      simp [canScheduleJob, hg, hmem, hcur, hrun]

/-- **C1, witness.**  In `c1wf`, C is schedulable (predecessor A listing C
in `on_success` is completed), while A (already in `completed_jobs`) is
not. -/
theorem c1_can_schedule_job_witness :
    canScheduleJob c1wf "C" = true ∧ canScheduleJob c1wf "A" = false := by
  have h := c1_can_schedule_job_spec c1wf "C" c1jobC (by decide) rfl
    ⟨c1jobA, by decide, by decide⟩ (by decide) (by decide) (by decide)
  exact ⟨h.1.mpr (Or.inl ⟨c1jobA, by decide, by decide⟩),
    h.2.1 c1wf "A" (by decide)⟩

/-- **C6.**  `Scheduler.assign_job`: (i) when no worker is both idle and
capable of the job's type, it returns `None` with the store untouched;
(ii) when an idle capability-matched worker `wid` is selected (the head of
the snapshot) but the socket write fails — no live connection, or the write
raises — it reverses the worker mutation and the assignment and returns
`None`, leaving the store state exactly as before the call (given, as in
every reachable selection, that the chosen idle worker had
`current_job_id = None` and the job had no assignment entry yet). -/
theorem c6_assign_job_reversal (sendOk : String → Bool) (jid : String)
    (jt : JobType) (q : SchedState) :
    ((∀ w ∈ q.workers, ¬(jt ∈ w.capabilities ∧ w.status = WorkerStatus.idle)) →
       assignJobS sendOk jid jt q = (none, q)) ∧
    (∀ (wid : String) (rest : List String) (w0 : Worker),
       ((q.workers.filter (fun w =>
           jt ∈ w.capabilities ∧ w.status = .idle)).map Worker.id) = wid :: rest →
       findWorker q.workers wid = some w0 →
       w0.status = WorkerStatus.idle →
       w0.current_job_id = none →
       (∀ a ∈ q.assignments, a.1 ≠ jid) →
       ¬(wid ∈ q.connections ∧ sendOk wid = true) →
       assignJobS sendOk jid jt q = (none, q)) := by
  constructor
  · intro hnone
    have hfilter : q.workers.filter (fun w =>
        decide (jt ∈ w.capabilities) && decide (w.status = .idle)) = [] := by
      rw [List.filter_eq_nil_iff]
      intro w hw
      simpa using hnone w hw
    simp [assignJobS, hfilter]
  · intro wid rest w0 hsel hfind hidle hcjid hnoassign hsend
    have hworkers : updateFirstWorker freeW wid
        (updateFirstWorker (busyW jid) wid q.workers) = q.workers := by
      rw [updateFirstWorker_comp (busyW jid) freeW (fun _ => rfl)]
      exact updateFirstWorker_eq_self hfind (by
        cases w0
        simp_all [busyW, freeW])
    have hassign : removeAssign (setAssign q.assignments jid wid) jid =
        q.assignments := removeAssign_setAssign hnoassign wid
    have hsendFail : ∀ ws as lg, sendMessage sendOk
        { workers := ws, assignments := as, connections := q.connections,
          sentLog := lg } wid jid =
        (false, { workers := ws, assignments := as,
                  connections := q.connections, sentLog := lg }) := by
      intro ws as lg
      unfold sendMessage
      by_cases hc : wid ∈ q.connections
      · have hso : ¬sendOk wid = true := fun hs => hsend ⟨hc, hs⟩
        simp [hc, hso]
      · simp [hc]
    simp only [assignJobS, hsel, hfind]
    rw [hsendFail]
    simp only
    rw [hworkers, hassign]

/-- **C6, witness.**  The write for w6 fails (no connection): the call
returns `None` and the store is exactly as before; and for a job type no
worker can run, the call returns `None` with no change. -/
theorem c6_assign_job_reversal_witness :
    assignJobS (fun _ => true) "j6" JobType.validation c6q = (none, c6q) ∧
    assignJobS (fun _ => true) "j6" JobType.processing c6qNone =
      (none, c6qNone) :=
  ⟨(c6_assign_job_reversal (fun _ => true) "j6" JobType.validation c6q).2
      "w6" [] c6worker (by decide) (by decide) rfl rfl (by decide) (by decide),
   (c6_assign_job_reversal (fun _ => true) "j6" JobType.processing c6qNone).1
      (by decide)⟩


/-- **C2.**  In the parallel-join scenario nothing is ever dispatched:
`start_workflow` raises `AttributeError` at the status read on the
un-awaited `get_workflow` coroutine, and every `job_status{completed}`
report raises at `job.status = COMPLETED` on the un-awaited `get_job`
coroutine, each leaving the store unchanged.  Agg is dispatched zero
times — not once after P3 — and stays pending and unassigned. -/
theorem c2_parallel_join_never_dispatches :
    startWorkflow c2st "W-par" = (.error .attributeError, c2st) ∧
    handleJobCompletion c2st "S" "ok" = (.error .attributeError, c2st) ∧
    handleJobCompletion c2st "P1" "ok" = (.error .attributeError, c2st) ∧
    handleJobCompletion c2st "P2" "ok" = (.error .attributeError, c2st) ∧
    handleJobCompletion c2st "P3" "ok" = (.error .attributeError, c2st) ∧
    (getJob c2wf "Agg").map Job.status = some JobStatus.pending ∧
    (getJob c2wf "Agg").map Job.worker_id = some none :=
  ⟨rfl, rfl, rfl, rfl, rfl, by decide, by decide⟩


/-- **C3.**  Terminal monotonicity holds: `handle_job_completion`,
`handle_job_failure` and `cancel_workflow` all raise `AttributeError` at
their first attribute access on an un-awaited coroutine and mutate
nothing, so a workflow whose status is terminal keeps both its status and
its job records under any subsequent delivery — the late
`job_status{completed}` is a no-op on the job and the workflow. -/
theorem c3_terminal_status_monotone (st : St) (jid r wid : String)
    (e : Option String) (w : Workflow) (hw : w ∈ st.workflows)
    (_hterm : w.status = WorkflowStatus.completed ∨
      w.status = WorkflowStatus.failed ∨
      w.status = WorkflowStatus.cancelled) :
    (handleJobCompletion st jid r).2 = st ∧
    (handleJobFailure st jid e).2 = st ∧
    (cancelWorkflow st wid).2 = st ∧
    w ∈ (handleJobCompletion st jid r).2.workflows :=
  ⟨rfl, rfl, rfl, hw⟩

/-- **C3, witness.**  The cancelled one-job store: the late completed
report for A leaves it identical. -/
theorem c3_terminal_status_monotone_witness :
    c3wf ∈ c3st.workflows ∧ c3wf.status = WorkflowStatus.cancelled ∧
    (handleJobCompletion c3st "A" "late").2 = c3st :=
  ⟨by decide, by decide,
    (c3_terminal_status_monotone c3st "A" "late" "W-can" (some "x") c3wf
      (by decide) (by decide)).1⟩


/-- **C4.**  Assignment consistency (P2) is preserved by the
`job_status{completed}` path: `handle_job_completion` raises
`AttributeError` before mutating anything (so it never returns normally),
and the endpoint's `except Exception` fallback only deletes the sender's
connection entry — workers, assignments and job records are untouched, so
every entry satisfying P2 before still satisfies it after. -/
theorem c4_assignment_consistency (st : St) (wid jid r : String)
    (hP2 : p2check st = true) :
    handleJobCompletion st jid r =
      (Except.error PyExc.attributeError, st) ∧
    (wsJobStatus st wid jid "completed" r).2 =
      { st with connections := st.connections.erase wid } ∧
    p2check (wsJobStatus st wid jid "completed" r).2 = true := by
  have h2 : (wsJobStatus st wid jid "completed" r).2 =
      { st with connections := st.connections.erase wid } := by
    show (registryDisconnect st wid).2 = _
    exact registryDisconnect_state st wid
  refine ⟨rfl, h2, ?_⟩
  rw [h2]
  exact hP2

/-- **C4, witness.**  The j1-on-w1 store satisfies P2 and still does
after w1's completed report is handled. -/
theorem c4_assignment_consistency_witness :
    p2check c4st = true ∧
    p2check (wsJobStatus c4st "w1" "j1" "completed" "ok").2 = true :=
  ⟨by decide,
    (c4_assignment_consistency c4st "w1" "j1" "ok" (by decide)).2.2⟩


/-- **C5.**  `handle_job_failure` performs none of the claimed retry or
failure logic: for every store, job id and error payload it raises
`AttributeError` at the `job.retry_count` read on the un-awaited
`get_job` coroutine, leaving the store — every retry counter, status,
and workflow list — unchanged. -/
theorem c5_handle_job_failure_raises (st : St) (jid : String)
    (e : Option String) :
    handleJobFailure st jid e = (Except.error PyExc.attributeError, st) :=
  rfl


/-- **C7.**  The liveness monitor: the 30 s wake interval and 60 s
threshold match the claim, and w7 silent for 61 s is flagged; but the
comparison uses the `timedelta.seconds` component (mod one day), so a
worker silent exactly 86400 s is NOT flagged; and on a genuine timeout
only the connection entry is deleted — the worker record survives
(`remove_worker` un-awaited), the assignment survives and the job record
is untouched (`_handle_worker_failure` raises `AttributeError` at
`job.worker_id = None` on the un-awaited `get_job`), and the raise ends
the health task. -/
theorem c7_heartbeat_timeout_defects :
    HEARTBEAT_CHECK_INTERVAL = 30 ∧ HEARTBEAT_TIMEOUT = 60 ∧
    workerTimedOut 61000000 c7worker = true ∧
    workerTimedOut 86400000000 c7silent = false ∧
    checkWorkerHealthTick 61000000 c7st =
      (.error .attributeError, { c7st with connections := [] }) ∧
    findWorker (checkWorkerHealthTick 61000000 c7st).2.workers "w7" =
      some c7worker ∧
    (checkWorkerHealthTick 61000000 c7st).2.assignments = [("j1", "w7")] ∧
    getJob c7wf "j1" = some c7job := by decide


/-- **C8.**  A `ready` message from w8: the handler raises
`AttributeError` at `worker.status = "idle"` on the un-awaited
`get_worker` coroutine — for any worker, before workflows are inspected —
so the worker is never marked idle and nothing is rescheduled; the
endpoint's `except Exception` clause then drops w8's connection, leaving
w8's record (still busy) and the pending job in place. -/
theorem c8_ready_crashes_before_idle_mark :
    wsReady c8st "w8" = (.error .attributeError, c8st) ∧
    wsReadyOuter c8st "w8" = (.ok (), { c8st with connections := [] }) ∧
    findWorker (wsReadyOuter c8st "w8").2.workers "w8" = some c8worker ∧
    c8worker.status = WorkerStatus.busy ∧
    (getJob c8wf "P").map Job.status = some JobStatus.pending := by decide


/-- **C9.**  Delivering the same `job_status{completed}` twice yields the
same store as delivering it once: each delivery raises `AttributeError`
at `job.status = COMPLETED` on the un-awaited `get_job` coroutine before
mutating anything, so both runs return the store unchanged and the second
run equals the first. -/
theorem c9_completion_idempotent (st : St) (jid r : String) :
    handleJobCompletion (handleJobCompletion st jid r).2 jid r =
      handleJobCompletion st jid r :=
  rfl


/-- **C10.**  `update_job_status(job_id, s)`: for a string `s` outside the
six status values the `ValueError` from `JobStatus(s)` is caught and the
call is a silent no-op, as claimed; but for every valid `s` the attribute
set on the un-awaited `get_job` coroutine raises uncaught
`AttributeError` — regardless of whether the job id exists — so neither
the unknown-id silent no-op nor the sets-exactly-that-status behaviour
holds. -/
theorem c10_update_job_status_divergence (st : St) (jid s : String) :
    (s ∉ jobStatusStrings → updateJobStatus st jid s = (.ok (), st)) ∧
    (s ∈ jobStatusStrings →
      updateJobStatus st jid s =
        (Except.error PyExc.attributeError, st)) := by
  constructor
  · intro h
    simp [updateJobStatus, Coro.truthy, jobStatusOfString_eq_none s h]
  · intro h
    obtain ⟨v, hv⟩ := jobStatusOfString_mem s h
    simp [updateJobStatus, Coro.truthy, Coro.attr, hv]

/-- **C10, witness.**  An invalid string is a silent no-op on the j1
store; the valid string "completed" raises with the store unchanged. -/
theorem c10_update_job_status_divergence_witness :
    ("bogus" ∉ jobStatusStrings ∧
      updateJobStatus c10st "j1" "bogus" = (.ok (), c10st)) ∧
    ("completed" ∈ jobStatusStrings ∧
      updateJobStatus c10st "j1" "completed" =
        (Except.error PyExc.attributeError, c10st)) :=
  ⟨⟨by decide, (c10_update_job_status_divergence c10st "j1" "bogus").1
      (by decide)⟩,
   ⟨by decide, (c10_update_job_status_divergence c10st "j1" "completed").2
      (by decide)⟩⟩

end WFO
